import Mathlib

/-!
Verification development for the SwissHome appliance service-recommendation
system. The definitions below are a shallow embedding of the Python sources:

* string utilities model Python's `str.lower`, substring containment
  (the `in` operator) and `str.split(".")`;
* `Value` models the loosely-typed JSON-like data threaded through the
  business rules engine (`business_rules/decision_engine.py`);
* `triage_agent`, `data_enrichment` helpers, `simulate_sap_integration`,
  `generate_replacement_options`, `generate_repair_order` and
  `recommendation_engine_agent` embed the pipeline stages of `agents.py`.

Numeric values are modelled as rationals (Python ints and floats); code
that can raise a Python exception is modelled in the `Except String` monad;
calls to `random.*` are modelled by explicit draw parameters.
-/

/-- Lower-case a string character by character (models Python `str.lower`
for the ASCII texts used by the system). -/
def lowerStr (s : String) : String := String.mk (s.data.map Char.toLower)

/-- Substring containment on character lists: `listSubstr hay needle` is
true iff `needle` occurs contiguously inside `hay` (the empty needle always
occurs). -/
def listSubstr : List Char → List Char → Bool
  | _, [] => true
  | [], _ :: _ => false
  | c :: t, n => List.isPrefixOf n (c :: t) || listSubstr t n

/-- Model of Python's `needle in hay` substring test on strings. -/
def strContains (hay needle : String) : Bool := listSubstr hay.data needle.data

/-- Split a character list at every occurrence of `sep` (models Python
`str.split(sep)` for a single-character separator). -/
def splitCharList (sep : Char) : List Char → List (List Char)
  | [] => [[]]
  | c :: rest =>
    match splitCharList sep rest with
    | [] => [[c]]
    | h :: t => if c = sep then [] :: h :: t else (c :: h) :: t

/-- Model of Python `field_path.split(".")`. -/
def splitPath (s : String) : List String := (splitCharList '.' s.data).map String.mk

/-- Model of Python `str.split()` restricted to single-space separation and
dropping empty pieces, which is how the appliance error descriptions are
tokenised. -/
def splitWords (s : String) : List String :=
  ((splitCharList ' ' s.data).map String.mk).filter (fun w => w ≠ "")

/-- Truncation of a rational towards zero (models Python `int(x)` on a
non-negative float). -/
def pyTrunc (q : ℚ) : ℤ := if 0 ≤ q then ⌊q⌋ else ⌈q⌉

/-- Round-half-to-even to the nearest integer (models Python `round` on the
exact rational value of its argument). -/
def pyRoundInt (q : ℚ) : ℤ :=
  let f := ⌊q⌋
  let r := q - f
  if r < 1/2 then f else if 1/2 < r then f + 1 else if f % 2 = 0 then f else f + 1

/-- Model of Python `round(x, 1)`. -/
def round1 (q : ℚ) : ℚ := (pyRoundInt (q * 10) : ℚ) / 10

/-- Model of Python `round(x, 2)`. -/
def round2 (q : ℚ) : ℚ := (pyRoundInt (q * 100) : ℚ) / 100

/-- Loosely-typed runtime values, mirroring the JSON-like dictionaries the
rules engine evaluates (`case_data`, condition values). Numbers collapse
Python ints and floats into rationals; `vnone` is Python `None`. -/
inductive Value where
  | num (q : ℚ)
  | str (s : String)
  | vbool (b : Bool)
  | vnone
  | list (xs : List Value)
  | dict (kvs : List (String × Value))

/-- Dictionary lookup by key (first binding wins, as in a Python dict
without duplicate keys). -/
def assocGet : List (String × Value) → String → Option Value
  | [], _ => Option.none
  | (k, v) :: rest, key => if k = key then some v else assocGet rest key

/-- Model of `BusinessRulesEngine._get_nested_value` after the field path
has been split: walk the key list, failing as soon as the current value is
not a dictionary containing the key. -/
def getNestedKeys : Value → List String → Option Value
  | v, [] => some v
  | .dict kvs, k :: ks =>
    match assocGet kvs k with
    | some v => getNestedKeys v ks
    | Option.none => Option.none
  | _, _ :: _ => Option.none

/-- Model of `BusinessRulesEngine._get_nested_value`: dot-separated nested
lookup returning `none` when any path segment is missing. -/
def getNestedValue (data : Value) (fieldPath : String) : Option Value :=
  getNestedKeys data (splitPath fieldPath)

/-- Model of Python `str(value)` as used by the `contains` operator. The
engine only ever applies it to strings; the renderings of the other shapes
are simplified placeholders. -/
def pyStr : Value → String
  | .str s => s
  | .num q => toString q
  | .vbool b => if b then "True" else "False"
  | .vnone => "None"
  | .list _ => "[...]"
  | .dict _ => "[dict]"

/-- Model of Python `==` between runtime values: numeric equality coerces
booleans to 0/1 (as Python does), strings compare as strings, mismatched
shapes compare unequal without raising. Dictionary equality is modelled
structurally (the rule configuration never compares dictionaries). -/
def pyEq : Value → Value → Bool
  | .num a, .num b => decide (a = b)
  | .num a, .vbool b => decide (a = if b then 1 else 0)
  | .vbool a, .num b => decide ((if a then (1 : ℚ) else 0) = b)
  | .vbool a, .vbool b => a == b
  | .str a, .str b => decide (a = b)
  | .vnone, .vnone => true
  | .list [], .list [] => true
  | .list (a :: as), .list (b :: bs) => pyEq a b && pyEq (.list as) (.list bs)
  | .dict [], .dict [] => true
  | .dict ((k, v) :: r), .dict ((k', v') :: r') =>
    decide (k = k') && pyEq v v' && pyEq (.dict r) (.dict r')
  | _, _ => false

/-- Numeric view of a value for Python's ordering comparisons (booleans are
ints in Python). -/
def toNumQ : Value → Option ℚ
  | .num q => some q
  | .vbool b => some (if b then 1 else 0)
  | _ => Option.none

/-- Model of Python ordering comparison `a < b` between runtime values:
defined for number/number and string/string pairs, a `TypeError` otherwise
(mirroring CPython, where e.g. `5 > "old"` raises). -/
def pyLt (a b : Value) : Except String Bool :=
  match toNumQ a, toNumQ b with
  | some x, some y => .ok (decide (x < y))
  | _, _ =>
    match a, b with
    | .str x, .str y => .ok (decide (x < y))
    | _, _ => .error "TypeError: unsupported comparison between instances"

/-- Model of Python `actual in expected` (membership): list membership via
`==`, substring test when both are strings, key membership for
dictionaries, and a `TypeError` for non-iterable right operands. -/
def pyIn (actual expected : Value) : Except String Bool :=
  match expected with
  | .list l => .ok (l.any (fun x => pyEq actual x))
  | .str s =>
    match actual with
    | .str a => .ok (strContains s a)
    | _ => .error "TypeError: in <string> requires string as left operand"
  | .dict kvs => .ok (kvs.any (fun kv => pyEq (.str kv.1) actual))
  | _ => .error "TypeError: argument of type is not iterable"

/-- Model of the `contains` branch of `_evaluate_single_condition` against a
list-valued comparison target with `match_any` semantics: Python's lazy
`any(val.lower() in str(actual).lower() for val in vals)`, which raises
`AttributeError` when it reaches a non-string element. -/
def pyContainsAny (actualLower : String) : List Value → Except String Bool
  | [] => .ok false
  | .str v :: rest =>
    if strContains actualLower (lowerStr v) then .ok true else pyContainsAny actualLower rest
  | _ :: _ => .error "AttributeError: object has no attribute lower"

/-- The `match_all` variant: Python's lazy `all(...)` over the same
generator. -/
def pyContainsAll (actualLower : String) : List Value → Except String Bool
  | [] => .ok true
  | .str v :: rest =>
    if strContains actualLower (lowerStr v) then pyContainsAll actualLower rest else .ok false
  | _ :: _ => .error "AttributeError: object has no attribute lower"

/-- The `contains` operator of `_evaluate_single_condition`: list-valued
targets use any/all semantics, scalar targets use case-insensitive
substring containment of `str(expected)` in `str(actual)`. -/
def pyContains (actual expected : Value) (matchAny : Bool) : Except String Bool :=
  match expected with
  | .list vals =>
    if matchAny then pyContainsAny (lowerStr (pyStr actual)) vals
    else pyContainsAll (lowerStr (pyStr actual)) vals
  | _ => .ok (strContains (lowerStr (pyStr actual)) (lowerStr (pyStr expected)))

/-- A single rule condition as read from the JSON configuration
(`condition["field"]`, `condition["operator"]`, `condition.get("value")`,
`condition.get("value_field")`, `condition.get("match_any", False)`).
A missing literal value is Python `None`, i.e. `Value.vnone`. -/
structure Condition where
  field : String
  operator : String
  value : Value
  value_field : Option String
  match_any : Bool

/-- A business rule: AND-combined conditions, an action tag, an optional
weight (`rule.get("weight", 0)`), an optional override flag
(`rule.get("override", False)`) and a reasoning string. -/
structure Rule where
  name : String
  conditions : List Condition
  action : String
  weight : ℚ
  override : Bool
  reasoning : String

/-- A rule group (`rule_set`): a priority and a declaration-ordered list of
rules. -/
structure RuleSet where
  priority : Int
  rules : List Rule

/-- Dispatch on the operator string, mirroring the `if/elif` ladder of
`_evaluate_single_condition`; an unrecognized operator falls through to
`return False`. -/
def applyOp (op : String) (actual expected : Value) (matchAny : Bool) : Except String Bool :=
  if op = "equals" then .ok (pyEq actual expected)
  else if op = "gt" then pyLt expected actual
  else if op = "lt" then pyLt actual expected
  else if op = "gte" then (pyLt actual expected).map (fun b => !b)
  else if op = "lte" then (pyLt expected actual).map (fun b => !b)
  else if op = "contains" then pyContains actual expected matchAny
  else if op = "in_list" then pyIn actual expected
  else if op = "not_in_list" then (pyIn actual expected).map (fun b => !b)
  else .ok false

/-- Model of `BusinessRulesEngine._evaluate_single_condition`: a failed
nested lookup of the field (or of a dynamic `value_field`) yields `false`;
otherwise the operator is applied, possibly raising (`Except.error`). An
empty `value_field` string is falsy in Python and ignored. -/
def evalSingleCondition (c : Condition) (data : Value) : Except String Bool :=
  match getNestedValue data c.field with
  | Option.none => .ok false
  | some actual =>
    match c.value_field with
    | some vf =>
      if vf = "" then applyOp c.operator actual c.value c.match_any
      else
        match getNestedValue data vf with
        | Option.none => .ok false
        | some expected => applyOp c.operator actual expected c.match_any
    | Option.none => applyOp c.operator actual c.value c.match_any

/-- Model of `BusinessRulesEngine._evaluate_rule_conditions`: all conditions
must hold, evaluated left to right with Python's early `return False`. -/
def evalConditions : List Condition → Value → Except String Bool
  | [], _ => .ok true
  | c :: cs, data => do
    let b ← evalSingleCondition c data
    if b then evalConditions cs data else pure false

/-- Model of `BusinessRulesEngine._action_to_recommendation`. -/
def actionToRecommendation (action : String) : String :=
  if action = "recommend_repair" then "repair"
  else if action = "recommend_replace" then "replace"
  else if action = "refer_manufacturer" then "manufacturer"
  else if action = "manual_review" then "manual"
  else if action = "escalate" then "manual"
  else "repair"

/-- The per-category weight tallies, mirroring the dictionary
`recommendation_weights` with its fixed insertion order
repair, replace, manufacturer, manual. -/
structure Tally where
  repair : ℚ
  replace : ℚ
  manufacturer : ℚ
  manual : ℚ

/-- The all-zero initial tally. -/
def tally0 : Tally := ⟨0, 0, 0, 0⟩

/-- Add a weight to one category's tally (`recommendation_weights[rec] += weight`). -/
def tallyAdd (t : Tally) (rec : String) (w : ℚ) : Tally :=
  if rec = "repair" then { t with repair := t.repair + w }
  else if rec = "replace" then { t with replace := t.replace + w }
  else if rec = "manufacturer" then { t with manufacturer := t.manufacturer + w }
  else { t with manual := t.manual + w }

/-- Read one category's tally. -/
def tallyGet (t : Tally) (rec : String) : ℚ :=
  if rec = "repair" then t.repair
  else if rec = "replace" then t.replace
  else if rec = "manufacturer" then t.manufacturer
  else t.manual

/-- Model of `max(recommendation_weights.values())`. -/
def tallyMax (t : Tally) : ℚ := max t.repair (max t.replace (max t.manufacturer t.manual))

/-- Model of the winning category
`[k for k, v in recommendation_weights.items() if v == max_weight][0]`:
the first key in the dictionary's insertion order whose tally equals the
maximum, i.e. ties break in the order repair, replace, manufacturer,
manual. -/
def tallyArgmax (t : Tally) : String :=
  if t.repair = tallyMax t then "repair"
  else if t.replace = tallyMax t then "replace"
  else if t.manufacturer = tallyMax t then "manufacturer"
  else "manual"

/-- Sum of all four tallies (the total weight across categories). -/
def tallySum (t : Tally) : ℚ := t.repair + t.replace + t.manufacturer + t.manual

/-- An entry of `results["applied_rules"]`. -/
structure AppliedRule where
  rule_set : String
  rule_name : String
  action : String
  reasoning : String
  weight : ℚ
  override : Bool

/-- The result dictionary built by `evaluate_rules`. `rule_weights` is
`Option.none` while it still holds its initial empty-dict value. -/
structure EvalResult where
  final_recommendation : Option String
  confidence_score : ℚ
  applied_rules : List AppliedRule
  rule_weights : Option Tally
  override_applied : Bool
  reasoning_chain : List String

/-- The mutable loop state of `evaluate_rules` while scanning rules. -/
structure ScanAcc where
  applied : List AppliedRule
  reasons : List String
  tally : Tally
  total : ℚ

/-- The initial loop state. -/
def scanAcc0 : ScanAcc := ⟨[], [], tally0, 0⟩

/-- The `applied_rules` entry recorded for a matching rule. -/
def mkApplied (rsName : String) (r : Rule) : AppliedRule :=
  ⟨rsName, r.name, r.action, r.reasoning, r.weight, r.override⟩

/-- The result returned immediately when an override rule matches:
`final_recommendation` is the rule's action mapped to a category and
`confidence_score` is exactly 1.0. -/
def overrideResult (acc : ScanAcc) (rsName : String) (r : Rule) : EvalResult :=
  { final_recommendation := some (actionToRecommendation r.action)
    confidence_score := 1
    applied_rules := acc.applied ++ [mkApplied rsName r]
    rule_weights := Option.none
    override_applied := true
    reasoning_chain := acc.reasons ++ [r.reasoning] }

/-- The result computed after the scan completes without an override:
weighted argmax when any weight accumulated, else the default repair
recommendation with confidence 0.5. -/
def finalizeScan (acc : ScanAcc) : EvalResult :=
  if 0 < acc.total then
    { final_recommendation := some (tallyArgmax acc.tally)
      confidence_score := min (tallyMax acc.tally / acc.total) 1
      applied_rules := acc.applied
      rule_weights := some acc.tally
      override_applied := false
      reasoning_chain := acc.reasons }
  else
    { final_recommendation := some "repair"
      confidence_score := 1/2
      applied_rules := acc.applied
      rule_weights := Option.none
      override_applied := false
      reasoning_chain := acc.reasons ++ ["No specific rules matched - using default recommendation"] }

/-- The nested rule loop of `evaluate_rules`, flattened over the
priority-sorted scan order: each matching rule is recorded; a matching
override rule returns immediately; a matching weighted rule accumulates
its weight into its category's tally. A raised condition error aborts the
whole evaluation. -/
def scanRules (data : Value) : List (String × Rule) → ScanAcc → Except String EvalResult
  | [], acc => .ok (finalizeScan acc)
  | (rsName, r) :: rest, acc => do
    let m ← evalConditions r.conditions data
    if m then
      if r.override then
        .ok (overrideResult acc rsName r)
      else
        if 0 < r.weight then
          scanRules data rest
            { applied := acc.applied ++ [mkApplied rsName r]
              reasons := acc.reasons ++ [r.reasoning]
              tally := tallyAdd acc.tally (actionToRecommendation r.action) r.weight
              total := acc.total + r.weight }
        else
          scanRules data rest { acc with applied := acc.applied ++ [mkApplied rsName r] }
    else
      scanRules data rest acc

/-- Stable insertion of a rule set into a priority-ascending list (used to
model Python's stable `sorted(rule_sets, key=priority)`). -/
def insertByPriority (x : String × RuleSet) : List (String × RuleSet) → List (String × RuleSet)
  | [] => [x]
  | y :: ys => if x.2.priority < y.2.priority then x :: y :: ys else y :: insertByPriority x ys

/-- Stable sort of the rule sets by ascending priority. -/
def sortRuleSets (sets : List (String × RuleSet)) : List (String × RuleSet) :=
  sets.foldr insertByPriority []

/-- The scan order of `evaluate_rules`: groups in ascending priority order
(stable), rules in declaration order within each group. -/
def scanOrder (sets : List (String × RuleSet)) : List (String × Rule) :=
  (sortRuleSets sets).flatMap (fun p => p.2.rules.map (fun r => (p.1, r)))

/-- Model of `BusinessRulesEngine.evaluate_rules` for an engine holding the
given rule sets (in configuration insertion order). -/
def evaluateRules (sets : List (String × RuleSet)) (data : Value) : Except String EvalResult :=
  scanRules data (scanOrder sets) scanAcc0

/-- The routing decision produced by the triage stage (the
`triage_decision` dictionary; the free-text reasoning field is elided). -/
structure TriageDecision where
  status : String
  route : String
deriving DecidableEq

/-- The four required case inputs of `ServiceCaseState`. -/
structure CaseInputs where
  device_type : String
  brand : String
  age : Int
  error_description : String

/-- The safety keyword list of `triage_agent`. -/
def safetyKeywords : List String := ["smoke", "fire", "burning", "electric shock", "gas leak"]

/-- Model of `triage_agent` (`agents.py`): validation of the four required
fields (Python truthiness: empty string or zero age is missing), then the
age-1 manufacturer check, then the age-15 replacement check, then the
safety-keyword check, then the normal route — in exactly the source's
order. -/
def triage_agent (s : CaseInputs) : TriageDecision :=
  if s.device_type = "" ∨ s.brand = "" ∨ s.age = 0 ∨ s.error_description = "" then
    ⟨"incomplete", "manual_review"⟩
  else
    let device_type := lowerStr s.device_type
    let error_desc := lowerStr s.error_description
    if s.age ≤ 1 ∧ (device_type = "oven" ∨ device_type = "refrigerator") then
      ⟨"complete", "manufacturer"⟩
    else if 15 ≤ s.age then
      ⟨"complete", "replacement_focus"⟩
    else if safetyKeywords.any (fun keyword => strContains error_desc keyword) then
      ⟨"complete", "urgent_manufacturer"⟩
    else
      ⟨"complete", "normal"⟩

/-- A known error pattern of `APPLIANCE_DATA` (description, repair cost,
success rate). -/
structure ErrorInfo where
  description : String
  repair_cost : ℚ
  success_rate : ℚ

/-- Per-(category, brand) appliance data. -/
structure DeviceData where
  common_errors : List (String × ErrorInfo)
  warranty_years : Int
  avg_lifespan : Int

/-- The `APPLIANCE_DATA` table of `agents.py`, in source order. -/
def applianceData : List (String × List (String × DeviceData)) :=
  [ ("cooktop",
      [ ("V-Zug",
          { common_errors :=
              [ ("E26", ⟨"Water in machine, pump not draining", 180, 95/100⟩)
              , ("F7_E3", ⟨"Heating element failure", 220, 90/100⟩)
              , ("power_issue", ⟨"No power/not turning on", 150, 85/100⟩) ]
            warranty_years := 2, avg_lifespan := 12 })
      , ("Miele",
          { common_errors :=
              [ ("heating_failure", ⟨"Uneven heating", 280, 88/100⟩)
              , ("display_error", ⟨"Display not working", 320, 75/100⟩)
              , ("sensor_fault", ⟨"Temperature sensor malfunction", 200, 92/100⟩) ]
            warranty_years := 2, avg_lifespan := 15 }) ])
  , ("dishwasher",
      [ ("V-Zug",
          { common_errors :=
              [ ("water_leak", ⟨"Water leaking from door", 160, 94/100⟩)
              , ("not_cleaning", ⟨"Poor cleaning performance", 120, 90/100⟩)
              , ("pump_noise", ⟨"Unusual pump noise", 240, 85/100⟩) ]
            warranty_years := 2, avg_lifespan := 10 }) ])
  , ("oven",
      [ ("Siemens",
          { common_errors :=
              [ ("door_seal", ⟨"Door seal damaged", 200, 95/100⟩)
              , ("heating_element", ⟨"Heating element burned out", 300, 88/100⟩)
              , ("temperature_control", ⟨"Temperature not accurate", 250, 90/100⟩) ]
            warranty_years := 2, avg_lifespan := 12 }) ]) ]

/-- Generic association-list lookup (Python `dict.get`). -/
def lookupA {α : Type} : List (String × α) → String → Option α
  | [], _ => Option.none
  | (k, v) :: rest, key => if k = key then some v else lookupA rest key

/-- Model of `APPLIANCE_DATA.get(device_type, {}).get(brand, {})`; `none`
models the empty fallback dictionary. -/
def applianceLookup (device_type brand : String) : Option DeviceData :=
  match lookupA applianceData device_type with
  | some brands => lookupA brands brand
  | Option.none => Option.none

/-- One error pattern matches the fault text when the lowered error code
occurs in it or any word of the lowered description occurs in it
(`error_code.lower() in error_desc or any(word in error_desc ...)`). -/
def errorMatches (error_desc : String) (code : String) (info : ErrorInfo) : Bool :=
  strContains error_desc (lowerStr code) ||
    (splitWords (lowerStr info.description)).any (fun word => strContains error_desc word)

/-- The first matching error pattern of the device's known errors, in table
order (the `for ... break` loop shared by the SAP simulation and the
technical analyst). -/
def firstErrorMatch (error_desc : String) : List (String × ErrorInfo) → Option (String × ErrorInfo)
  | [] => Option.none
  | (code, info) :: rest =>
    if errorMatches error_desc code info then some (code, info)
    else firstErrorMatch error_desc rest

/-- The deterministic part of the SAP repair-cost estimate: the matched
pattern's cost, or the default 300. -/
def baseRepairCost (device_type brand error_desc : String) : ℚ :=
  match applianceLookup device_type brand with
  | some dd =>
    match firstErrorMatch error_desc dd.common_errors with
    | some (_, info) => info.repair_cost
    | Option.none => 300
  | Option.none => 300

/-- The parts availability tier derived from the matched pattern. -/
def basePartsAvailability (device_type brand error_desc : String) : String :=
  match applianceLookup device_type brand with
  | some dd =>
    match firstErrorMatch error_desc dd.common_errors with
    | some (_, info) => if 9/10 < info.success_rate then "high" else "medium"
    | Option.none => "medium"
  | Option.none => "medium"

/-- The dictionary returned by `simulate_sap_integration`. -/
structure SapData where
  estimated_repair_cost : ℚ
  parts_availability : String
  labor_cost : ℚ
  parts_cost : ℚ
  estimated_repair_time : String
  technician_availability : String

/-- Model of `simulate_sap_integration`: the fault text is matched against
the known error patterns, then the call
`repair_cost += random.randint(-50, 100)` is modelled by the explicit draw
parameter `jitter`, so the function is a deterministic function of the
inputs and the draw. -/
def simulate_sap_integration (device_type brand error_desc : String) (jitter : ℤ) : SapData :=
  let repair_cost := baseRepairCost device_type brand error_desc + (jitter : ℚ)
  { estimated_repair_cost := repair_cost
    parts_availability := basePartsAvailability device_type brand error_desc
    labor_cost := repair_cost * (4/10)
    parts_cost := repair_cost * (6/10)
    estimated_repair_time := "2-5 business days"
    technician_availability := "next week" }

/-- The cost-ceiling computation of `data_enrichment_agent` (`agents.py`
lines 203-211): for devices older than 10 years the ceiling is raised to at
least 1800 and capped at 2500; otherwise it is the repair-focused
`min(value * 0.6, 800)`. -/
def enrichmentCostCeiling (age : Int) (device_value : ℚ) : ℚ :=
  if 10 < age then min (max (device_value * (6/10)) 1800) 2500
  else min (device_value * (6/10)) 800

/-- Clamp a value to a closed interval, as the specification's
`clamp(value, lo, hi)` notation. -/
def clampQ (x lo hi : ℚ) : ℚ := min (max x lo) hi

/-- The ceiling formula as the specification states it: for age > 10 the
value-based ceiling is clamped to [1800, 2500], otherwise it is
`min(value × 0.6, 800)`. -/
def specCostCeiling (age : Int) (device_value : ℚ) : ℚ :=
  if 10 < age then clampQ (device_value * (6/10)) 1800 2500
  else min (device_value * (6/10)) 800

/-- A replacement catalog entry of `REPLACEMENT_PRODUCTS`. -/
structure Product where
  brand : String
  model : String
  price : ℚ
  margin : ℚ
  stock : String
  energy_rating : String

/-- The `REPLACEMENT_PRODUCTS` catalog of `agents.py`, in source order
(feature lists elided; they do not enter any computation). -/
def replacementProducts : List (String × List Product) :=
  [ ("cooktop",
      [ ⟨"V-Zug", "AdoraID V6000 Supreme", 2400, 480, "high", "A++"⟩
      , ⟨"V-Zug", "AdoraID V4000", 1800, 360, "medium", "A+"⟩
      , ⟨"Miele", "KM 7897 FL", 2800, 560, "low", "A++"⟩
      , ⟨"Siemens", "EX875LYC1E", 1200, 240, "high", "A"⟩ ])
  , ("dishwasher",
      [ ⟨"V-Zug", "Adora SL V4000", 1600, 320, "high", "A+++"⟩
      , ⟨"Miele", "G 7960 SCVi", 2200, 440, "medium", "A+++"⟩ ])
  , ("oven",
      [ ⟨"V-Zug", "Combair V6000 Supreme", 3200, 640, "medium", "A++"⟩
      , ⟨"Siemens", "HB678GBS6", 1800, 360, "high", "A+"⟩ ]) ]

/-- Model of `get_delivery_estimate`. -/
def getDeliveryEstimate (stock_level : String) : String :=
  if stock_level = "high" then "1-2 weeks"
  else if stock_level = "medium" then "2-3 weeks"
  else if stock_level = "low" then "3-4 weeks"
  else if stock_level = "out_of_stock" then "4-6 weeks"
  else "2-3 weeks"

/-- Model of `get_warranty_years`. -/
def getWarrantyYears (brand : String) : Int :=
  if brand = "V-Zug" ∨ brand = "Miele" then 3 else 2

/-- Model of `estimate_trade_in_value`: a category base value depreciated by
15% per year (floored at 10%), truncated to an integer. -/
def estimateTradeInValue (device_age : Int) (device_type : String) : ℤ :=
  let base_value : ℚ :=
    if device_type = "cooktop" then 200
    else if device_type = "oven" then 300
    else if device_type = "dishwasher" then 250
    else 200
  pyTrunc (base_value * max (1/10) ((17/20 : ℚ) ^ device_age))

/-- The total-cost-of-ownership projection of `calculate_tco`. -/
structure TcoData where
  initial_cost : ℚ
  annual_operating_cost : ℚ
  tco_10_years : ℚ
  monthly_cost : ℚ

/-- Model of `calculate_tco`. -/
def calculateTco (price : ℚ) (energy_rating : String) : TcoData :=
  let annual_energy_cost : ℚ := if energy_rating = "A+++" ∨ energy_rating = "A++" then 120 else 150
  let annual_maintenance : ℚ := 50
  let tco_10_years := price + (annual_energy_cost + annual_maintenance) * 10
  { initial_cost := price
    annual_operating_cost := annual_energy_cost + annual_maintenance
    tco_10_years := tco_10_years
    monthly_cost := round2 (tco_10_years / 120) }

/-- The sustainability bundle of `get_sustainability_score`. -/
structure SustainabilityData where
  energy_savings_percent : ℚ
  co2_reduction_kg_year : ℚ
  device_lifespan_extension : Int
  recyclability_score : String

/-- Model of `get_sustainability_score`. -/
def getSustainabilityScore (p : Product) (current_age : Int) : SustainabilityData :=
  let energy_savings : ℚ := if p.energy_rating = "A+++" ∨ p.energy_rating = "A++" then 30 else 15
  { energy_savings_percent := energy_savings
    co2_reduction_kg_year := energy_savings * (5/2)
    device_lifespan_extension := max 0 (12 - current_age)
    recyclability_score := if p.brand = "V-Zug" ∨ p.brand = "Miele" then "High" else "Medium" }

/-- A scored (and, after annotation, ranked) replacement offer. The
free-text `scoring_breakdown` and `recommended_reason` fields are elided;
`ranking_position` and `recommendation_confidence` hold 0 and "" until the
top-3 annotation pass sets them. -/
structure Offer where
  brand : String
  model : String
  price : ℚ
  margin : ℚ
  stock : String
  energy_rating : String
  recommendation_score : ℚ
  estimated_delivery : String
  installation_included : Bool
  warranty_years : Int
  trade_in_value : ℤ
  financing_available : Bool
  tco : TcoData
  sustainability : SustainabilityData
  ranking_position : Nat
  recommendation_confidence : String

/-- Maximum margin among the budget-filtered products
(`max(p["margin"] for p in budget_filtered)`; only evaluated on non-empty
lists, where the fallback head value is irrelevant). -/
def maxMarginOf : List Product → ℚ
  | [] => 0
  | h :: t => t.foldl (fun a p => max a p.margin) h.margin

/-- Average price of the budget-filtered products. -/
def avgPriceOf (l : List Product) : ℚ :=
  if l.length = 0 then 0 else (l.map (fun p => p.price)).sum / l.length

/-- The six-criteria score of one product inside
`generate_replacement_options`: brand loyalty (25/10), margin optimization
(25 scaled by margin ratio), stock tier (20/12/5/0), energy rating
(15/12/9/6/3/0), technology upgrade by device age (10/6/2) and price value
against the filtered average (5/3/1). -/
def productScore (filtered : List Product) (customer_brands : List String) (age : Int) (p : Product) : ℚ :=
  let brand_score : ℚ := if p.brand ∈ customer_brands then 25 else 10
  let max_margin := maxMarginOf filtered
  let margin_score : ℚ := if 0 < max_margin then p.margin / max_margin * 25 else 0
  let stock_score : ℚ :=
    if p.stock = "high" then 20 else if p.stock = "medium" then 12
    else if p.stock = "low" then 5 else 0
  let energy_score : ℚ :=
    if p.energy_rating = "A+++" then 15 else if p.energy_rating = "A++" then 12
    else if p.energy_rating = "A+" then 9 else if p.energy_rating = "A" then 6
    else if p.energy_rating = "B" then 3 else 0
  let upgrade_score : ℚ := if 8 < age then 10 else if 4 < age then 6 else 2
  let avg_price := avgPriceOf filtered
  let price_score : ℚ :=
    if p.price ≤ avg_price * (9/10) then 5
    else if p.price ≤ avg_price * (11/10) then 3 else 1
  brand_score + margin_score + stock_score + energy_score + upgrade_score + price_score

/-- Build the scored offer for one product (`product_with_score`), with
`recommendation_score = round(score, 1)` and the derived delivery,
warranty, trade-in, financing, TCO and sustainability fields. -/
def mkOffer (device_type : String) (filtered : List Product) (customer_brands : List String)
    (age : Int) (p : Product) : Offer :=
  { brand := p.brand
    model := p.model
    price := p.price
    margin := p.margin
    stock := p.stock
    energy_rating := p.energy_rating
    recommendation_score := round1 (productScore filtered customer_brands age p)
    estimated_delivery := getDeliveryEstimate p.stock
    installation_included := true
    warranty_years := getWarrantyYears p.brand
    trade_in_value := estimateTradeInValue age device_type
    financing_available := 1500 < p.price
    tco := calculateTco p.price p.energy_rating
    sustainability := getSustainabilityScore p age
    ranking_position := 0
    recommendation_confidence := "" }

/-- The descending comparison used to sort offers: the left offer's score
dominates the right one's. -/
def offerGE (a b : Offer) : Prop := b.recommendation_score ≤ a.recommendation_score

instance : DecidableRel offerGE := fun a b =>
  inferInstanceAs (Decidable (b.recommendation_score ≤ a.recommendation_score))

instance : IsTotal Offer offerGE := ⟨fun a b => le_total b.recommendation_score a.recommendation_score⟩

instance : IsTrans Offer offerGE := ⟨fun _ _ _ h1 h2 => le_trans h2 h1⟩

/-- Model of `scored_products.sort(key=recommendation_score, reverse=True)`:
a stable sort placing higher scores first and keeping the original order of
equal scores, as Python's stable sort does. -/
def sortOffersDesc (l : List Offer) : List Offer := List.insertionSort offerGE l

/-- The confidence label attached to a ranked offer
(High > 70, Medium > 50, else Standard). -/
def confidenceLabel (score : ℚ) : String :=
  if 70 < score then "High" else if 50 < score then "Medium" else "Standard"

/-- The annotation loop `for i, product in enumerate(scored_products[:3])`
starting at index `i`: each offer receives ranking position `i + 1` and its
confidence label. -/
def annotateFrom (i : Nat) : List Offer → List Offer
  | [] => []
  | o :: rest =>
    { o with
      ranking_position := i + 1
      recommendation_confidence := confidenceLabel o.recommendation_score } :: annotateFrom (i + 1) rest

/-- The annotation pass over the top three offers: ranking positions are
1-based, confidence labels follow `confidenceLabel`. -/
def annotateTop3 (l : List Offer) : List Offer := annotateFrom 0 (l.take 3)

/-- The scoring-and-ranking core of `generate_replacement_options`
(everything after the customer-preference lookup succeeds): filter by
`price ≤ ceiling × flexibility`, score, sort descending, return the
annotated top 3. -/
def rankReplacementOffers (device_type : String) (available : List Product)
    (customer_brands : List String) (cost_ceiling : ℚ) (age : Int) : List Offer :=
  let flexibility : ℚ := if 10 < age then 2 else 3/2
  let max_price := cost_ceiling * flexibility
  let filtered := available.filter (fun p => p.price ≤ max_price)
  annotateTop3 (sortOffersDesc (filtered.map (mkOffer device_type filtered customer_brands age)))

/-- The customer preference dictionary carried in the case state. The
deployed preference payloads carry a `preferred_brands` list of brand
names; that list is the only preference datum the ranker reads. -/
structure CustomerPrefs where
  preferred_brands : List String

/-- The slice of the Salesforce customer profile read by the synthesis
stage (`customer_data.get("customer_tier")`; a missing key is `none`). -/
structure CustomerData where
  customer_tier : Option String

/-- The slice of the economic analyst's `margin_analysis` bundle read by
the synthesis stage (`margin_analysis.get("economic_score", 50)`). -/
structure MarginAnalysis where
  economic_score : ℚ

/-- The slice of the technical analyst's bundle read by the repair-order
builder (`technical_analysis.get("estimated_timeline", ...)`). -/
structure TechnicalAnalysis where
  estimated_timeline : String

/-- The case state as seen by the synthesis-stage functions. A field of
type `Option _` models a key that is absent or `None` in the Python state
dictionary; each read applies its call site's `dict.get` default. In
particular `customer_preferences = Option.none` models the key holding
Python `None`, the default of the `ServiceCaseInput` model. -/
structure ServiceCaseState where
  device_type : String
  brand : String
  age : Int
  error_description : String
  customer_preferences : Option CustomerPrefs
  customer_data : Option CustomerData
  repair_cost : Option ℚ
  cost_ceiling : Option ℚ
  sap_data : Option SapData
  technical_analysis : Option TechnicalAnalysis
  warranty_status : Option String
  repair_probability : Option ℚ
  economic_viability : Option String
  margin_analysis : Option MarginAnalysis

/-- The repair-order artifact of `generate_repair_order`, flattened (the
nested dictionaries' constant prose fields are elided). `order_id_draw`
models `random.randint(100000, 999999)` and `created_timestamp` models
`datetime.now().isoformat()`. -/
structure RepairOrder where
  order_id : String
  parts_cost : ℚ
  labor_cost : ℚ
  total_cost : ℚ
  estimated_duration : String
  technician_availability : String
  warranty_status : String
  tech_priority : String
  created_timestamp : String
  status : String

/-- Model of `generate_repair_order`: the cost breakdown comes from the
SAP data, the timeline from the technical analysis, the priority from an
"urgent" substring scan of the error description; the order id and
timestamp come from the explicit random/clock draws. -/
def generate_repair_order (st : ServiceCaseState) (order_id_draw : ℤ) (now : String) : RepairOrder :=
  { order_id := "REP_" ++ toString order_id_draw
    parts_cost := (st.sap_data.map (fun d => d.parts_cost)).getD 0
    labor_cost := (st.sap_data.map (fun d => d.labor_cost)).getD 0
    total_cost := st.repair_cost.getD 0
    estimated_duration := (st.technical_analysis.map (fun t => t.estimated_timeline)).getD "3-5 days"
    technician_availability := (st.sap_data.map (fun d => d.technician_availability)).getD "next week"
    warranty_status := st.warranty_status.getD "out_of_warranty"
    tech_priority := if strContains (lowerStr st.error_description) "urgent" then "high" else "standard"
    created_timestamp := now
    status := "created" }

/-- Model of `generate_replacement_options`: products for the device type
are budget-filtered with the age-dependent flexibility multiplier; when any
product survives the filter, the per-product scoring loop dereferences
`customer_preferences`, raising `AttributeError` when that field holds
`None`; otherwise the offers are scored, sorted and the top 3 annotated. -/
def generate_replacement_options (st : ServiceCaseState) : Except String (List Offer) :=
  let device_type := lowerStr st.device_type
  let cost_ceiling := st.cost_ceiling.getD 2000
  let available := (lookupA replacementProducts device_type).getD []
  let flexibility : ℚ := if 10 < st.age then 2 else 3/2
  let filtered := available.filter (fun p => p.price ≤ cost_ceiling * flexibility)
  match filtered with
  | [] => .ok []
  | _ :: _ =>
    match st.customer_preferences with
    | Option.none => .error "AttributeError: NoneType object has no attribute get"
    | some prefs =>
      .ok (rankReplacementOffers device_type available prefs.preferred_brands cost_ceiling st.age)

/-- The economic score the synthesis stage reads from the state
(`margin_analysis.get("economic_score", 50)` with `state.get(..., {})`). -/
def economicScoreOf (st : ServiceCaseState) : ℚ :=
  (st.margin_analysis.map (fun m => m.economic_score)).getD 50

/-- The repair probability the synthesis stage reads from the state
(`state.get("repair_probability", 0.75)`). -/
def repairProbabilityOf (st : ServiceCaseState) : ℚ :=
  st.repair_probability.getD (3/4)

/-- The confidence formula of `recommendation_engine_agent`:
`min(final_score / 100, 0.95)` with
`final_score = economic_score * 0.6 + repair_probability * 100 * 0.4`. -/
def synthesisConfidence (economic_score repair_probability : ℚ) : ℚ :=
  min ((economic_score * (6/10) + repair_probability * 100 * (4/10)) / 100) (95/100)

/-- The final recommendation of `recommendation_engine_agent`: the economic
verdict, overridden to replace below probability 0.6, or to repair above
probability 0.9 for Gold-tier customers (low-probability check first). -/
def synthesisRecommendation (st : ServiceCaseState) : String :=
  let economic_viability := st.economic_viability.getD "repair"
  let repair_probability := repairProbabilityOf st
  if repair_probability < 6/10 then "replace"
  else if 9/10 < repair_probability ∧
      (st.customer_data.bind (fun c => c.customer_tier)) = some "Gold" then "repair"
  else economic_viability

/-- The output record of `recommendation_engine_agent` (the free-text
justification and the transparency bundle are elided). -/
structure AgentResult where
  recommendation : String
  repair_order : Option RepairOrder
  replacement_options : List Offer
  confidence_score : ℚ

/-- Model of `recommendation_engine_agent`: compute the confidence and the
possibly-overridden recommendation, then build exactly one artifact — a
repair order for `repair` (options empty), a ranked offer list for
`replace` (order absent). The offer generation can raise, which propagates
out of the agent. -/
def recommendation_engine_agent (st : ServiceCaseState) (order_id_draw : ℤ) (now : String) :
    Except String AgentResult :=
  let confidence_score := synthesisConfidence (economicScoreOf st) (repairProbabilityOf st)
  let final_recommendation := synthesisRecommendation st
  if final_recommendation = "repair" then
    .ok { recommendation := final_recommendation
          repair_order := some (generate_repair_order st order_id_draw now)
          replacement_options := []
          confidence_score := confidence_score }
  else do
    let opts ← generate_replacement_options st
    .ok { recommendation := final_recommendation
          repair_order := Option.none
          replacement_options := opts
          confidence_score := confidence_score }

/-- The `default_rules` configuration shipped in
`BusinessRulesEngine._load_rules`, in source order. A condition without a
literal value (the dynamic `cost_ceiling` comparison) carries
`Value.vnone`, matching Python's `condition.get("value")`. -/
def defaultRules : List (String × RuleSet) :=
  [ ("safety_rules",
      { priority := 1
        rules :=
          [ { name := "smoke_fire_emergency"
              conditions :=
                [ ⟨"error_description", "contains",
                    .list [.str "smoke", .str "fire", .str "burning", .str "gas leak"],
                    Option.none, true⟩ ]
              action := "refer_manufacturer", weight := 0, override := true
              reasoning := "Safety concern detected - immediate manufacturer attention required" }
          , { name := "electrical_hazard"
              conditions :=
                [ ⟨"error_description", "contains",
                    .list [.str "electric shock", .str "sparks", .str "burning smell from electrical"],
                    Option.none, true⟩ ]
              action := "refer_manufacturer", weight := 0, override := true
              reasoning := "Electrical safety hazard - requires immediate professional attention" } ] })
  , ("warranty_rules",
      { priority := 2
        rules :=
          [ { name := "under_warranty_new"
              conditions :=
                [ ⟨"age", "lte", .num 1, Option.none, false⟩
                , ⟨"device_type", "in_list",
                    .list [.str "oven", .str "refrigerator", .str "dishwasher"], Option.none, false⟩ ]
              action := "refer_manufacturer", weight := 0, override := false
              reasoning := "Device under warranty - manufacturer responsibility" } ] })
  , ("economic_rules",
      { priority := 3
        rules :=
          [ { name := "high_value_customer_repair_preference"
              conditions :=
                [ ⟨"customer_tier", "in_list", .list [.str "Gold", .str "Platinum"], Option.none, false⟩
                , ⟨"repair_cost", "lte", .num 800, Option.none, false⟩
                , ⟨"repair_probability", "gte", .num (7/10), Option.none, false⟩ ]
              action := "recommend_repair", weight := 20, override := false
              reasoning := "Premium customer - prioritize repair when feasible" }
          , { name := "cost_ceiling_exceeded"
              conditions := [ ⟨"repair_cost", "gt", .vnone, some "cost_ceiling", false⟩ ]
              action := "recommend_replace", weight := 30, override := false
              reasoning := "Repair cost exceeds economic threshold" }
          , { name := "high_margin_replacement"
              conditions :=
                [ ⟨"replacement_margin", "gt", .num 500, Option.none, false⟩
                , ⟨"repair_probability", "lt", .num (8/10), Option.none, false⟩ ]
              action := "recommend_replace", weight := 25, override := false
              reasoning := "High margin replacement opportunity with repair uncertainty" } ] })
  , ("technical_rules",
      { priority := 4
        rules :=
          [ { name := "very_old_device"
              conditions := [ ⟨"age", "gte", .num 15, Option.none, false⟩ ]
              action := "recommend_replace", weight := 25, override := false
              reasoning := "Device exceeds typical lifespan" }
          , { name := "low_repair_probability"
              conditions := [ ⟨"repair_probability", "lt", .num (6/10), Option.none, false⟩ ]
              action := "recommend_replace", weight := 20, override := false
              reasoning := "Low technical success probability" }
          , { name := "high_success_repair"
              conditions :=
                [ ⟨"repair_probability", "gte", .num (9/10), Option.none, false⟩
                , ⟨"repair_cost", "lte", .num 500, Option.none, false⟩ ]
              action := "recommend_repair", weight := 25, override := false
              reasoning := "High success probability with reasonable cost" } ] })
  , ("sustainability_rules",
      { priority := 5
        rules :=
          [ { name := "young_device_sustainability"
              conditions :=
                [ ⟨"age", "lt", .num 8, Option.none, false⟩
                , ⟨"repair_probability", "gte", .num (7/10), Option.none, false⟩ ]
              action := "recommend_repair", weight := 15, override := false
              reasoning := "Environmental benefit from extending device lifespan" } ] })
  ]

/-- C1 counterexample: a valid case record for a one-year-old oven whose
fault text contains "smoke" is routed to plain `manufacturer` by the age
check, not to `urgent_manufacturer` — the safety-keyword check does not
have the highest priority. -/
theorem triage_smoke_not_highest_priority_cex :
    (¬ ((CaseInputs.mk "oven" "Bosch" 1 "Smoke coming from the oven").device_type = "" ∨
        (CaseInputs.mk "oven" "Bosch" 1 "Smoke coming from the oven").brand = "" ∨
        (CaseInputs.mk "oven" "Bosch" 1 "Smoke coming from the oven").age = 0 ∨
        (CaseInputs.mk "oven" "Bosch" 1 "Smoke coming from the oven").error_description = "")) ∧
    strContains (lowerStr (CaseInputs.mk "oven" "Bosch" 1 "Smoke coming from the oven").error_description) "smoke" = true ∧
    triage_agent (CaseInputs.mk "oven" "Bosch" 1 "Smoke coming from the oven") =
      TriageDecision.mk "complete" "manufacturer" ∧
    (triage_agent (CaseInputs.mk "oven" "Bosch" 1 "Smoke coming from the oven")).route ≠
      "urgent_manufacturer" := by
  decide

/-- C1 (amended): for a valid case record whose fault description contains
"smoke", the triage stage returns route `urgent_manufacturer` provided the
two age rules checked earlier do not fire, i.e. unless the device is at
most one year old and an oven/refrigerator, or is at least 15 years old
(the safety-keyword check runs after both age checks). -/
theorem triage_smoke_routes_urgent_after_age_rules (s : CaseInputs)
    (hv : ¬ (s.device_type = "" ∨ s.brand = "" ∨ s.age = 0 ∨ s.error_description = ""))
    (hsmoke : strContains (lowerStr s.error_description) "smoke" = true)
    (hage1 : ¬ (s.age ≤ 1 ∧ (lowerStr s.device_type = "oven" ∨ lowerStr s.device_type = "refrigerator")))
    (hage15 : ¬ (15 : Int) ≤ s.age) :
    triage_agent s = TriageDecision.mk "complete" "urgent_manufacturer" := by
  simp only [triage_agent, if_neg hv, if_neg hage1, if_neg hage15, safetyKeywords]
  simp [List.any_cons, hsmoke]

/-- Witness for the amended C1 theorem at a concrete three-year-old cooktop
with a smoke report. -/
theorem triage_smoke_routes_urgent_witness :
    triage_agent (CaseInputs.mk "cooktop" "V-Zug" 3 "Smoke coming from unit") =
      TriageDecision.mk "complete" "urgent_manufacturer" :=
  triage_smoke_routes_urgent_after_age_rules (CaseInputs.mk "cooktop" "V-Zug" 3 "Smoke coming from unit")
    (by decide) (by decide) (by decide) (by decide)

/-- C9: the enrichment stage's cost ceiling equals the specification's
asymmetric formula — clamped to [1800, 2500] for devices older than 10
years, `min(value × 0.6, 800)` otherwise — and the stated bounds hold. -/
theorem enrichment_cost_ceiling_asymmetric (age : Int) (device_value : ℚ) :
    enrichmentCostCeiling age device_value = specCostCeiling age device_value ∧
    (10 < age →
      1800 ≤ enrichmentCostCeiling age device_value ∧
      enrichmentCostCeiling age device_value ≤ 2500) ∧
    (age ≤ 10 → enrichmentCostCeiling age device_value ≤ 800) := by
  refine ⟨rfl, ?_, ?_⟩
  · intro h
    rw [enrichmentCostCeiling, if_pos h]
    exact ⟨le_min (le_max_right _ _) (by norm_num), min_le_right _ _⟩
  · intro h
    rw [enrichmentCostCeiling, if_neg (not_lt.mpr h)]
    exact min_le_right _ _

/-- Witness for the C9 theorem at a 12-year-old device worth 1000: the
old-device branch bounds hold. -/
theorem enrichment_cost_ceiling_witness :
    1800 ≤ enrichmentCostCeiling 12 1000 ∧ enrichmentCostCeiling 12 1000 ≤ 2500 :=
  (enrichment_cost_ceiling_asymmetric 12 1000).2.1 (by norm_num)

/-- C4 counterexample: two admissible draws of the random jitter added by
`repair_cost += random.randint(-50, 100)` give different enrichment
outputs on the same case record, so running the enrichment stage twice on
the same record need not yield identical output. -/
theorem sap_integration_not_deterministic_cex :
    simulate_sap_integration "cooktop" "V-Zug" "water in machine, pump not draining" 0 ≠
      simulate_sap_integration "cooktop" "V-Zug" "water in machine, pump not draining" 1 ∧
    (simulate_sap_integration "cooktop" "V-Zug" "water in machine, pump not draining" 0).estimated_repair_cost = 180 ∧
    (simulate_sap_integration "cooktop" "V-Zug" "water in machine, pump not draining" 1).estimated_repair_cost = 181 ∧
    (-50 : ℤ) ≤ 0 ∧ (0 : ℤ) ≤ 100 ∧ (-50 : ℤ) ≤ 1 ∧ (1 : ℤ) ≤ 100 := by
  have hbase : baseRepairCost "cooktop" "V-Zug" "water in machine, pump not draining" = 180 := by
    rfl
  have h0 : (simulate_sap_integration "cooktop" "V-Zug" "water in machine, pump not draining" 0).estimated_repair_cost = 180 := by
    simp only [simulate_sap_integration]
    rw [hbase]
    norm_num
  have h1 : (simulate_sap_integration "cooktop" "V-Zug" "water in machine, pump not draining" 1).estimated_repair_cost = 181 := by
    simp only [simulate_sap_integration]
    rw [hbase]
    norm_num
  refine ⟨?_, h0, h1, by norm_num, by norm_num, by norm_num, by norm_num⟩
  intro h
  rw [h] at h0
  rw [h0] at h1
  norm_num at h1

/-- C4 (amended): each run of the SAP-enrichment computation is a
deterministic function of the case inputs and the consumed random draw —
the estimated repair cost is exactly the matched base cost plus the drawn
jitter — and therefore two runs that consume different draws produce
different outputs on the same record. -/
theorem sap_integration_deterministic_in_draw (d b e : String) (j₁ j₂ : ℤ) (h : j₁ ≠ j₂) :
    (simulate_sap_integration d b e j₁).estimated_repair_cost = baseRepairCost d b e + (j₁ : ℚ) ∧
    (simulate_sap_integration d b e j₁).estimated_repair_cost ≠
      (simulate_sap_integration d b e j₂).estimated_repair_cost := by
  refine ⟨rfl, ?_⟩
  simp only [simulate_sap_integration]
  intro h'
  exact h (by exact_mod_cast add_left_cancel h')

/-- Witness for the amended C4 theorem at the draws 0 and 1. -/
theorem sap_integration_deterministic_in_draw_witness :
    (simulate_sap_integration "cooktop" "V-Zug" "heating element failure" 0).estimated_repair_cost =
      baseRepairCost "cooktop" "V-Zug" "heating element failure" + ((0 : ℤ) : ℚ) ∧
    (simulate_sap_integration "cooktop" "V-Zug" "heating element failure" 0).estimated_repair_cost ≠
      (simulate_sap_integration "cooktop" "V-Zug" "heating element failure" 1).estimated_repair_cost :=
  sap_integration_deterministic_in_draw "cooktop" "V-Zug" "heating element failure" 0 1 (by decide)

/-- A case state whose `customer_preferences` field holds the input model's
default `None` while the replace path is forced (repair probability 0.5):
the budget filter keeps all four cooktop products, so the scoring loop
dereferences the null preference object. -/
def stNullPrefs : ServiceCaseState :=
  { device_type := "cooktop", brand := "V-Zug", age := 12
    error_description := "water leak under the unit"
    customer_preferences := Option.none
    customer_data := some ⟨some "Standard"⟩
    repair_cost := some 300, cost_ceiling := some 2000
    sap_data := Option.none, technical_analysis := Option.none
    warranty_status := Option.none, repair_probability := some (1/2)
    economic_viability := some "replace", margin_analysis := some ⟨40⟩ }

/-- C10: on a valid case state whose present `customer_preferences` field
holds the null default and whose final recommendation is replace,
`generate_replacement_options` raises (`AttributeError`) instead of
returning a list, and the raised error propagates out of the
recommendation-synthesis stage. -/
theorem generate_replacement_options_null_prefs_raises :
    synthesisRecommendation stNullPrefs = "replace" ∧
    generate_replacement_options stNullPrefs =
      .error "AttributeError: NoneType object has no attribute get" ∧
    recommendation_engine_agent stNullPrefs 123456 "2024-01-01T00:00:00" =
      .error "AttributeError: NoneType object has no attribute get" := by
  have hlow : lowerStr "cooktop" = "cooktop" := by decide
  have hrec : synthesisRecommendation stNullPrefs = "replace" := by
    norm_num [synthesisRecommendation, repairProbabilityOf, stNullPrefs]
  have hgen : generate_replacement_options stNullPrefs =
      .error "AttributeError: NoneType object has no attribute get" := by
    norm_num [generate_replacement_options, stNullPrefs, hlow, lookupA, replacementProducts,
      List.filter]
  refine ⟨hrec, hgen, ?_⟩
  rw [recommendation_engine_agent, if_neg (show ¬ _ by rw [hrec]; decide), hgen]
  rfl

/-- A case state for a device category with no catalog entries
(refrigerator), with the replace path forced and a well-formed preference
object. -/
def stFridge : ServiceCaseState :=
  { device_type := "refrigerator", brand := "Liebherr", age := 5
    error_description := "compressor noise"
    customer_preferences := some ⟨["Liebherr"]⟩
    customer_data := some ⟨some "Standard"⟩
    repair_cost := some 300, cost_ceiling := some 700
    sap_data := Option.none, technical_analysis := Option.none
    warranty_status := Option.none, repair_probability := some (1/2)
    economic_viability := some "replace", margin_analysis := some ⟨40⟩ }

/-- The synthesis result on `stFridge`. -/
def rFridge : AgentResult :=
  { recommendation := "replace", repair_order := Option.none, replacement_options := []
    confidence_score := synthesisConfidence (economicScoreOf stFridge) (repairProbabilityOf stFridge) }

/-- C3 counterexample: a completed case whose final recommendation is
replace but whose replacement-options list is empty (no catalog products
exist for the category), so replace does not imply a non-empty offer
list. -/
theorem replace_with_empty_options_cex :
    recommendation_engine_agent stFridge 1 "t" = .ok rFridge ∧
    rFridge.recommendation = "replace" ∧
    rFridge.replacement_options = [] ∧
    rFridge.repair_order = Option.none := by
  have hlow : lowerStr "refrigerator" = "refrigerator" := by decide
  have hrec : synthesisRecommendation stFridge = "replace" := by
    norm_num [synthesisRecommendation, repairProbabilityOf, stFridge]
  have hgen : generate_replacement_options stFridge = .ok [] := by
    norm_num [generate_replacement_options, stFridge, hlow, lookupA, replacementProducts,
      List.filter]
  refine ⟨?_, rfl, rfl, rfl⟩
  rw [recommendation_engine_agent, if_neg (show ¬ _ by rw [hrec]; decide), hgen]
  simp only [hrec]
  rfl

/-- C3 (amended): when the synthesis stage completes, recommendation
repair comes with a repair order and an empty replacement-options list,
and recommendation replace comes with no repair order (its options list
holds whatever offers survive the budget filter, possibly none). -/
theorem recommendation_artifacts_exclusive (st : ServiceCaseState) (draw : ℤ) (now : String)
    (r : AgentResult) (hok : recommendation_engine_agent st draw now = Except.ok r) :
    (r.recommendation = "repair" → (∃ o, r.repair_order = some o) ∧ r.replacement_options = []) ∧
    (r.recommendation = "replace" → r.repair_order = Option.none) := by
  by_cases h : synthesisRecommendation st = "repair"
  · rw [recommendation_engine_agent, if_pos h] at hok
    injection hok with hok'
    subst hok'
    refine ⟨fun _ => ⟨⟨_, rfl⟩, rfl⟩, fun hr => ?_⟩
    rw [h] at hr
    have hr' : ("repair" : String) = "replace" := hr
    exact absurd hr' (by decide)
  · rw [recommendation_engine_agent, if_neg h] at hok
    cases hgen : generate_replacement_options st with
    | error e =>
      rw [hgen] at hok
      exact Except.noConfusion hok
    | ok opts =>
      rw [hgen] at hok
      injection hok with hok'
      subst hok'
      exact ⟨fun hr => absurd hr h, fun _ => rfl⟩

/-- A case state exercising the repair path of the synthesis stage: high
repair probability, Gold-tier customer. -/
def stRepair : ServiceCaseState :=
  { device_type := "cooktop", brand := "V-Zug", age := 3
    error_description := "heating element failure"
    customer_preferences := some ⟨["V-Zug"]⟩
    customer_data := some ⟨some "Gold"⟩
    repair_cost := some 220, cost_ceiling := some 800
    sap_data := some ⟨220, "high", 88, 132, "2-5 business days", "next week"⟩
    technical_analysis := some ⟨"1-2 days"⟩
    warranty_status := some "out_of_warranty", repair_probability := some (19/20)
    economic_viability := some "repair", margin_analysis := some ⟨75⟩ }

/-- The synthesis result on `stRepair`. -/
def rRepair : AgentResult :=
  { recommendation := "repair"
    repair_order := some (generate_repair_order stRepair 111111 "2024-01-01T00:00:00")
    replacement_options := []
    confidence_score := synthesisConfidence (economicScoreOf stRepair) (repairProbabilityOf stRepair) }

/-- The synthesis stage really produces `rRepair` on `stRepair` (shared
evaluation fact for the witnesses below). -/
theorem agent_stRepair_ok :
    recommendation_engine_agent stRepair 111111 "2024-01-01T00:00:00" = Except.ok rRepair := by
  have hrec : synthesisRecommendation stRepair = "repair" := by
    norm_num [synthesisRecommendation, repairProbabilityOf, stRepair]
  rw [recommendation_engine_agent, if_pos hrec, hrec]
  rfl

/-- Witness for the amended C3 theorem on the concrete repair-path state. -/
theorem recommendation_artifacts_exclusive_witness :
    (∃ o, rRepair.repair_order = some o) ∧ rRepair.replacement_options = [] :=
  (recommendation_artifacts_exclusive stRepair 111111 "2024-01-01T00:00:00" rRepair
    agent_stRepair_ok).1 rfl

/-- The synthesis stage always reports the confidence it computed before
branching on the recommendation, whichever artifact branch is taken. -/
theorem agent_confidence_eq (st : ServiceCaseState) (draw : ℤ) (now : String) (r : AgentResult)
    (hok : recommendation_engine_agent st draw now = Except.ok r) :
    r.confidence_score = synthesisConfidence (economicScoreOf st) (repairProbabilityOf st) := by
  by_cases h : synthesisRecommendation st = "repair"
  · rw [recommendation_engine_agent, if_pos h] at hok
    injection hok with hok'
    subst hok'
    rfl
  · rw [recommendation_engine_agent, if_neg h] at hok
    cases hgen : generate_replacement_options st with
    | error e =>
      rw [hgen] at hok
      exact Except.noConfusion hok
    | ok opts =>
      rw [hgen] at hok
      injection hok with hok'
      subst hok'
      rfl

/-- C7: the confidence returned by the recommendation-synthesis stage is
exactly `min(0.95, (economic_score × 0.6 + repair_probability × 100 × 0.4) / 100)`,
and with the economic score in [0, 100] and the repair probability in
[0, 1] it lies in [0, 0.95]. -/
theorem synthesis_confidence_formula (st : ServiceCaseState) (draw : ℤ) (now : String)
    (r : AgentResult) (hok : recommendation_engine_agent st draw now = Except.ok r)
    (he0 : 0 ≤ economicScoreOf st) (he1 : economicScoreOf st ≤ 100)
    (hp0 : 0 ≤ repairProbabilityOf st) (hp1 : repairProbabilityOf st ≤ 1) :
    r.confidence_score =
      min (95/100)
        ((economicScoreOf st * (6/10) + repairProbabilityOf st * 100 * (4/10)) / 100) ∧
    0 ≤ r.confidence_score ∧ r.confidence_score ≤ 95/100 := by
  have hc := agent_confidence_eq st draw now r hok
  rw [hc, synthesisConfidence]
  refine ⟨min_comm _ _, le_min ?_ (by norm_num), min_le_right _ _⟩
  have hnum : 0 ≤ economicScoreOf st * (6/10) + repairProbabilityOf st * 100 * (4/10) := by
    nlinarith
  positivity

/-- Witness for the C7 theorem on the concrete repair-path case state. -/
theorem synthesis_confidence_formula_witness :
    rRepair.confidence_score =
      min (95/100)
        ((economicScoreOf stRepair * (6/10) + repairProbabilityOf stRepair * 100 * (4/10)) / 100) ∧
    0 ≤ rRepair.confidence_score ∧ rRepair.confidence_score ≤ 95/100 :=
  synthesis_confidence_formula stRepair 111111 "2024-01-01T00:00:00" rRepair agent_stRepair_ok
    (by norm_num [economicScoreOf, stRepair]) (by norm_num [economicScoreOf, stRepair])
    (by norm_num [repairProbabilityOf, stRepair]) (by norm_num [repairProbabilityOf, stRepair])

/-- A rules configuration holding a malformed rule (numeric `gt` against a
string literal) ahead of a well-formed rule, for the C6 counterexample. -/
def badRuleConfig : List (String × RuleSet) :=
  [ ("bad_rules",
      { priority := 1
        rules :=
          [ { name := "malformed_comparison"
              conditions := [⟨"age", "gt", .str "old", Option.none, false⟩]
              action := "recommend_replace", weight := 10, override := false
              reasoning := "malformed" }
          , { name := "well_formed"
              conditions := []
              action := "recommend_repair", weight := 10, override := false
              reasoning := "ok" } ] }) ]

/-- C6 counterexample: a recognized operator applied to incomparably-typed
values does not evaluate to false — it raises (`TypeError`), and the raised
error aborts the evaluation of the remaining rules (the well-formed rule
after it is never tallied). -/
theorem condition_type_error_cex :
    evalSingleCondition ⟨"age", "gt", .str "old", Option.none, false⟩ (.dict [("age", .num 5)]) =
      .error "TypeError: unsupported comparison between instances" ∧
    evaluateRules badRuleConfig (.dict [("age", .num 5)]) =
      .error "TypeError: unsupported comparison between instances" := by
  exact ⟨rfl, rfl⟩

/-- C6 (amended): a nested field lookup that fails at any path segment and
an unrecognized operator both make the condition evaluate to false without
raising; a type-mismatched comparison under a recognized operator,
however, raises and aborts evaluation of the remaining rules. -/
theorem condition_guards_lookup_and_operator (c : Condition) (data : Value) :
    (getNestedValue data c.field = Option.none → evalSingleCondition c data = Except.ok false) ∧
    (c.operator ∉ ["equals", "gt", "lt", "gte", "lte", "contains", "in_list", "not_in_list"] →
      evalSingleCondition c data = Except.ok false) := by
  constructor
  · intro h
    unfold evalSingleCondition
    rw [h]
  · intro hop
    simp only [List.mem_cons, List.not_mem_nil, or_false] at hop
    push_neg at hop
    obtain ⟨h1, h2, h3, h4, h5, h6, h7, h8⟩ := hop
    have hOps : ∀ a e m, applyOp c.operator a e m = Except.ok false := by
      intro a e m
      unfold applyOp
      rw [if_neg h1, if_neg h2, if_neg h3, if_neg h4, if_neg h5, if_neg h6, if_neg h7, if_neg h8]
    cases hf : getNestedValue data c.field with
    | none =>
      unfold evalSingleCondition
      rw [hf]
    | some actual =>
      cases hvf : c.value_field with
      | none =>
        simp only [evalSingleCondition, hf, hvf]
        exact hOps _ _ _
      | some vf =>
        by_cases hvf0 : vf = ""
        · simp only [evalSingleCondition, hf, hvf, if_pos hvf0]
          exact hOps _ _ _
        · simp only [evalSingleCondition, hf, hvf, if_neg hvf0]
          cases hl : getNestedValue data vf with
          | none => simp only [hl]
          | some expected =>
            simp only [hl]
            exact hOps _ _ _

/-- Witness for the amended C6 theorem: a condition with a missing field
and an unrecognized operator evaluates to false on the empty record. -/
theorem condition_guards_witness :
    getNestedValue (.dict []) "missing.path" = Option.none ∧
    evalSingleCondition ⟨"missing.path", "bogus_op", .vnone, Option.none, false⟩ (.dict []) =
      Except.ok false ∧
    ("bogus_op" ∉ ["equals", "gt", "lt", "gte", "lte", "contains", "in_list", "not_in_list"]) :=
  ⟨rfl,
   (condition_guards_lookup_and_operator
     ⟨"missing.path", "bogus_op", .vnone, Option.none, false⟩ (.dict [])).1 rfl,
   by decide⟩

/-- Reduction of the exception monad's bind on a success value. -/
@[simp] theorem exceptOkBind {ε α β : Type} (a : α) (f : α → Except ε β) :
    (Except.ok a : Except ε α) >>= f = f a := rfl

/-- Reduction of the exception monad's bind on an error value. -/
@[simp] theorem exceptErrorBind {ε α β : Type} (e : ε) (f : α → Except ε β) :
    (Except.error e : Except ε α) >>= f = Except.error e := rfl

/-- Scanning a rule list whose prefix contains no matching override rule
and whose next entry is a matching override rule returns that rule's
override result immediately, and the result does not depend on anything
after the override rule. -/
theorem scanRules_override_first (data : Value) (rsName : String) (r : Rule)
    (hm : evalConditions r.conditions data = Except.ok true) (ho : r.override = true) :
    ∀ (pre : List (String × Rule)), ∀ (post : List (String × Rule)) (acc : ScanAcc),
    (∀ p ∈ pre, ∃ b, evalConditions p.2.conditions data = Except.ok b ∧
      (b = true → p.2.override = false)) →
    (∃ acc', scanRules data (pre ++ (rsName, r) :: post) acc =
      Except.ok (overrideResult acc' rsName r)) ∧
    scanRules data (pre ++ (rsName, r) :: post) acc = scanRules data (pre ++ [(rsName, r)]) acc := by
  intro pre
  induction pre with
  | nil =>
    intro post acc _
    refine ⟨⟨acc, ?_⟩, ?_⟩
    · simp [scanRules, hm, ho]
    · simp [scanRules, hm, ho]
  | cons p pre ih =>
    intro post acc hpre
    obtain ⟨pn, pr⟩ := p
    obtain ⟨b, hb, hbo⟩ := hpre (pn, pr) (List.mem_cons_self _ _)
    have hpre' : ∀ q ∈ pre, ∃ b, evalConditions q.2.conditions data = Except.ok b ∧
        (b = true → q.2.override = false) :=
      fun q hq => hpre q (List.mem_cons_of_mem _ hq)
    simp only [List.cons_append, scanRules, hb, exceptOkBind]
    cases b with
    | false =>
      simpa using ih post acc hpre'
    | true =>
      have hno : pr.override = false := hbo rfl
      simp only [hno, if_true, if_false, Bool.false_eq_true]
      by_cases hw : 0 < pr.weight
      · simp only [if_pos hw]
        simpa using ih post _ hpre'
      · simp only [if_neg hw]
        simpa using ih post _ hpre'

/-- C2: whenever the priority-ordered scan reaches a matching override
rule with no earlier matching override, evaluation returns immediately at
that rule — the final recommendation is the rule's action mapped to a
category, the confidence is exactly 1.0, and the result is unchanged if
everything scanned later is dropped. -/
theorem evaluate_rules_override_short_circuits (sets : List (String × RuleSet)) (data : Value)
    (pre post : List (String × Rule)) (rsName : String) (r : Rule)
    (hscan : scanOrder sets = pre ++ (rsName, r) :: post)
    (hpre : ∀ p ∈ pre, ∃ b, evalConditions p.2.conditions data = Except.ok b ∧
      (b = true → p.2.override = false))
    (hm : evalConditions r.conditions data = Except.ok true)
    (ho : r.override = true) :
    ∃ res, evaluateRules sets data = Except.ok res ∧
      res.final_recommendation = some (actionToRecommendation r.action) ∧
      res.confidence_score = 1 ∧
      res.override_applied = true ∧
      evaluateRules sets data = scanRules data (pre ++ [(rsName, r)]) scanAcc0 := by
  obtain ⟨⟨acc', hacc⟩, hpost⟩ :=
    scanRules_override_first data rsName r hm ho pre post scanAcc0 hpre
  refine ⟨overrideResult acc' rsName r, ?_, rfl, rfl, rfl, ?_⟩
  · rw [evaluateRules, hscan]
    exact hacc
  · rw [evaluateRules, hscan]
    exact hpost

/-- The first rule in the default configuration's scan order: the smoke
and fire safety override. -/
def smokeFireRule : Rule :=
  { name := "smoke_fire_emergency"
    conditions :=
      [ ⟨"error_description", "contains",
          .list [.str "smoke", .str "fire", .str "burning", .str "gas leak"],
          Option.none, true⟩ ]
    action := "refer_manufacturer", weight := 0, override := true
    reasoning := "Safety concern detected - immediate manufacturer attention required" }

/-- A case record whose fault text mentions smoke. -/
def smokeCaseData : Value :=
  .dict [("error_description", .str "Smoke coming from the unit"), ("age", .num 3)]

/-- Witness for the C2 theorem: on the default configuration and a smoke
report, evaluation stops at the first safety override with recommendation
manufacturer and confidence exactly 1.0. -/
theorem evaluate_rules_override_witness :
    ∃ res, evaluateRules defaultRules smokeCaseData = Except.ok res ∧
      res.final_recommendation = some "manufacturer" ∧
      res.confidence_score = 1 ∧
      res.override_applied = true := by
  obtain ⟨res, h1, h2, h3, h4, _⟩ :=
    evaluate_rules_override_short_circuits defaultRules smokeCaseData
      [] (List.drop 1 (scanOrder defaultRules)) "safety_rules" smokeFireRule
      (by rfl) (by simp) (by rfl) rfl
  refine ⟨res, h1, ?_, h3, h4⟩
  rw [h2]
  rfl

/-- Whether a rule's conditions evaluate to true without raising. -/
def condOkTrue (data : Value) (p : String × Rule) : Bool :=
  match evalConditions p.2.conditions data with
  | Except.ok true => true
  | _ => false

/-- The matching rules that contribute weight (conditions true and
`weight > 0`), in scan order. -/
def matchedWeighted (data : Value) (l : List (String × Rule)) : List (String × Rule) :=
  l.filter (fun p => condOkTrue data p && decide (0 < p.2.weight))

/-- Accumulate the matched weighted rules' contributions into a starting
tally. -/
def tallyFoldFrom (t : Tally) (data : Value) (l : List (String × Rule)) : Tally :=
  (matchedWeighted data l).foldl
    (fun t p => tallyAdd t (actionToRecommendation p.2.action) p.2.weight) t

/-- The per-category tallies accumulated over a scan with no override. -/
def specTally (data : Value) (l : List (String × Rule)) : Tally :=
  tallyFoldFrom tally0 data l

/-- The total accumulated weight over a scan with no override. -/
def specTotal (data : Value) (l : List (String × Rule)) : ℚ :=
  ((matchedWeighted data l).map (fun p => p.2.weight)).sum

/-- Adding a weight to one category raises the tally sum by that weight. -/
theorem tallySum_tallyAdd (t : Tally) (rec : String) (w : ℚ) :
    tallySum (tallyAdd t rec w) = tallySum t + w := by
  unfold tallyAdd tallySum
  split_ifs <;> simp <;> ring

/-- Each component of a tally only grows under a non-negative addition. -/
theorem tallyAdd_component_le (t : Tally) (rec : String) (w : ℚ) (hw : 0 ≤ w) :
    t.repair ≤ (tallyAdd t rec w).repair ∧ t.replace ≤ (tallyAdd t rec w).replace ∧
    t.manufacturer ≤ (tallyAdd t rec w).manufacturer ∧ t.manual ≤ (tallyAdd t rec w).manual := by
  unfold tallyAdd
  split_ifs <;> refine ⟨?_, ?_, ?_, ?_⟩ <;> simp <;> linarith

/-- The tally fold over a contribution list adds exactly the total of the
contributed weights. -/
theorem tallySum_foldl (contribs : List (String × Rule)) :
    ∀ t : Tally,
      tallySum (contribs.foldl
        (fun t p => tallyAdd t (actionToRecommendation p.2.action) p.2.weight) t) =
      tallySum t + (contribs.map (fun p => p.2.weight)).sum := by
  induction contribs with
  | nil => intro t; simp
  | cons p rest ih =>
    intro t
    simp only [List.foldl_cons, List.map_cons, List.sum_cons, ih, tallySum_tallyAdd]
    ring

/-- The tally fold preserves component lower bounds when all contributed
weights are non-negative. -/
theorem tallyFold_component_ge (contribs : List (String × Rule))
    (hw : ∀ p ∈ contribs, 0 ≤ p.2.weight) :
    ∀ t : Tally,
      t.repair ≤ (contribs.foldl
        (fun t p => tallyAdd t (actionToRecommendation p.2.action) p.2.weight) t).repair ∧
      t.replace ≤ (contribs.foldl
        (fun t p => tallyAdd t (actionToRecommendation p.2.action) p.2.weight) t).replace ∧
      t.manufacturer ≤ (contribs.foldl
        (fun t p => tallyAdd t (actionToRecommendation p.2.action) p.2.weight) t).manufacturer ∧
      t.manual ≤ (contribs.foldl
        (fun t p => tallyAdd t (actionToRecommendation p.2.action) p.2.weight) t).manual := by
  induction contribs with
  | nil => intro t; exact ⟨le_refl _, le_refl _, le_refl _, le_refl _⟩
  | cons p rest ih =>
    intro t
    have hp := hw p (List.mem_cons_self _ _)
    have hrest : ∀ q ∈ rest, 0 ≤ q.2.weight := fun q hq => hw q (List.mem_cons_of_mem _ hq)
    have h1 := tallyAdd_component_le t (actionToRecommendation p.2.action) p.2.weight hp
    have h2 := ih hrest (tallyAdd t (actionToRecommendation p.2.action) p.2.weight)
    simp only [List.foldl_cons]
    exact ⟨le_trans h1.1 h2.1, le_trans h1.2.1 h2.2.1,
      le_trans h1.2.2.1 h2.2.2.1, le_trans h1.2.2.2 h2.2.2.2⟩

/-- The maximum tally is bounded by the tally sum when every component is
non-negative. -/
theorem tallyMax_le_tallySum (t : Tally) (h1 : 0 ≤ t.repair) (h2 : 0 ≤ t.replace)
    (h3 : 0 ≤ t.manufacturer) (h4 : 0 ≤ t.manual) : tallyMax t ≤ tallySum t := by
  unfold tallyMax tallySum
  refine max_le (by linarith) (max_le (by linarith) (max_le (by linarith) (by linarith)))

/-- The winning category's tally is the maximum tally. -/
theorem tallyGet_tallyArgmax (t : Tally) : tallyGet t (tallyArgmax t) = tallyMax t := by
  have hcases : tallyMax t = t.repair ∨ tallyMax t = t.replace ∨
      tallyMax t = t.manufacturer ∨ tallyMax t = t.manual := by
    unfold tallyMax
    rcases max_choice t.repair (max t.replace (max t.manufacturer t.manual)) with h | h
    · exact Or.inl h
    · rw [h]
      rcases max_choice t.replace (max t.manufacturer t.manual) with h' | h'
      · exact Or.inr (Or.inl h')
      · rw [h']
        rcases max_choice t.manufacturer t.manual with h'' | h''
        · exact Or.inr (Or.inr (Or.inl h''))
        · exact Or.inr (Or.inr (Or.inr h''))
  unfold tallyArgmax
  split_ifs with ha hb hc
  · simp [tallyGet, ha]
  · simp [tallyGet, hb]
  · simp [tallyGet, hc]
  · rcases hcases with h | h | h | h
    · exact absurd h.symm ha
    · exact absurd h.symm hb
    · exact absurd h.symm hc
    · simp [tallyGet, h]

/-- Unfolding of the matched-weighted filter over a cons cell. -/
theorem matchedWeighted_cons (data : Value) (p : String × Rule) (rest : List (String × Rule)) :
    matchedWeighted data (p :: rest) =
      if condOkTrue data p && decide (0 < p.2.weight) then p :: matchedWeighted data rest
      else matchedWeighted data rest := by
  simp [matchedWeighted, List.filter_cons]

/-- The tally fold over a kept head contributes the head's weight first. -/
theorem tallyFoldFrom_cons_kept (data : Value) (p : String × Rule) (rest : List (String × Rule))
    (t : Tally) (hc : condOkTrue data p = true) (hw : 0 < p.2.weight) :
    tallyFoldFrom t data (p :: rest) =
      tallyFoldFrom (tallyAdd t (actionToRecommendation p.2.action) p.2.weight) data rest := by
  unfold tallyFoldFrom
  rw [matchedWeighted_cons, if_pos (by simp [hc, hw])]
  rfl

/-- The tally fold ignores a dropped head. -/
theorem tallyFoldFrom_cons_dropped (data : Value) (p : String × Rule)
    (rest : List (String × Rule)) (t : Tally)
    (hc : condOkTrue data p = false ∨ ¬ 0 < p.2.weight) :
    tallyFoldFrom t data (p :: rest) = tallyFoldFrom t data rest := by
  unfold tallyFoldFrom
  rw [matchedWeighted_cons, if_neg]
  rcases hc with hc | hc <;> simp [hc]

/-- The total weight over a kept head adds the head's weight. -/
theorem specTotal_cons_kept (data : Value) (p : String × Rule) (rest : List (String × Rule))
    (hc : condOkTrue data p = true) (hw : 0 < p.2.weight) :
    specTotal data (p :: rest) = p.2.weight + specTotal data rest := by
  unfold specTotal
  rw [matchedWeighted_cons, if_pos (by simp [hc, hw])]
  simp

/-- The total weight ignores a dropped head. -/
theorem specTotal_cons_dropped (data : Value) (p : String × Rule) (rest : List (String × Rule))
    (hc : condOkTrue data p = false ∨ ¬ 0 < p.2.weight) :
    specTotal data (p :: rest) = specTotal data rest := by
  unfold specTotal
  rw [matchedWeighted_cons, if_neg]
  rcases hc with hc | hc <;> simp [hc]

/-- A scan in which every rule's conditions evaluate without error and no
matching rule is an override completes and finalizes exactly the
accumulated specification tally and total. -/
theorem scanRules_no_override (data : Value) :
    ∀ (l : List (String × Rule)) (acc : ScanAcc),
    (∀ p ∈ l, ∃ b, evalConditions p.2.conditions data = Except.ok b) →
    (∀ p ∈ l, evalConditions p.2.conditions data = Except.ok true → p.2.override = false) →
    ∃ applied reasons, scanRules data l acc =
      Except.ok (finalizeScan
        ⟨applied, reasons, tallyFoldFrom acc.tally data l, acc.total + specTotal data l⟩) := by
  intro l
  induction l with
  | nil =>
    intro acc _ _
    refine ⟨acc.applied, acc.reasons, ?_⟩
    simp [scanRules, tallyFoldFrom, matchedWeighted, specTotal]
  | cons p rest ih =>
    intro acc herr hno
    obtain ⟨pn, pr⟩ := p
    obtain ⟨b, hb⟩ := herr (pn, pr) (List.mem_cons_self _ _)
    have herr' : ∀ q ∈ rest, ∃ b, evalConditions q.2.conditions data = Except.ok b :=
      fun q hq => herr q (List.mem_cons_of_mem _ hq)
    have hno' : ∀ q ∈ rest, evalConditions q.2.conditions data = Except.ok true →
        q.2.override = false :=
      fun q hq => hno q (List.mem_cons_of_mem _ hq)
    simp only [scanRules, hb, exceptOkBind]
    cases b with
    | false =>
      have hcond : condOkTrue data (pn, pr) = false := by simp [condOkTrue, hb]
      simp only [Bool.false_eq_true, if_false]
      obtain ⟨A, R, hsc⟩ := ih acc herr' hno'
      refine ⟨A, R, ?_⟩
      rw [hsc, tallyFoldFrom_cons_dropped data (pn, pr) rest acc.tally (Or.inl hcond),
        specTotal_cons_dropped data (pn, pr) rest (Or.inl hcond)]
    | true =>
      have hov : pr.override = false := hno (pn, pr) (List.mem_cons_self _ _) hb
      have hcond : condOkTrue data (pn, pr) = true := by simp [condOkTrue, hb]
      simp only [if_true, hov, Bool.false_eq_true, if_false]
      by_cases hw : 0 < pr.weight
      · simp only [if_pos hw]
        obtain ⟨A, R, hsc⟩ := ih
          ⟨acc.applied ++ [mkApplied pn pr], acc.reasons ++ [pr.reasoning],
            tallyAdd acc.tally (actionToRecommendation pr.action) pr.weight,
            acc.total + pr.weight⟩ herr' hno'
        refine ⟨A, R, ?_⟩
        rw [hsc, tallyFoldFrom_cons_kept data (pn, pr) rest acc.tally hcond hw,
          specTotal_cons_kept data (pn, pr) rest hcond hw, ← add_assoc]
      · simp only [if_neg hw]
        obtain ⟨A, R, hsc⟩ := ih
          ⟨acc.applied ++ [mkApplied pn pr], acc.reasons, acc.tally, acc.total⟩ herr' hno'
        refine ⟨A, R, ?_⟩
        rw [hsc, tallyFoldFrom_cons_dropped data (pn, pr) rest acc.tally (Or.inr hw),
          specTotal_cons_dropped data (pn, pr) rest (Or.inr hw)]

/-- Every weight contributed to the tally is positive (hence non-negative). -/
theorem matchedWeighted_weight_nonneg (data : Value) (l : List (String × Rule)) :
    ∀ p ∈ matchedWeighted data l, 0 ≤ p.2.weight := by
  intro p hp
  have h := (List.mem_filter.mp hp).2
  have h' := (Bool.and_eq_true _ _).mp h
  exact le_of_lt (of_decide_eq_true h'.2)

/-- C5: when no override rule fires, every condition evaluates without
error and the accumulated weight is positive, the evaluator returns the
category with the highest tally — ties broken in the fixed order repair,
replace, manufacturer, manual — with confidence equal to that category's
tally divided by the total weight across all categories. -/
theorem evaluate_rules_weighted_tally (sets : List (String × RuleSet)) (data : Value)
    (herr : ∀ p ∈ scanOrder sets, ∃ b, evalConditions p.2.conditions data = Except.ok b)
    (hno : ∀ p ∈ scanOrder sets, evalConditions p.2.conditions data = Except.ok true →
      p.2.override = false)
    (hpos : 0 < specTotal data (scanOrder sets)) :
    ∃ res, evaluateRules sets data = Except.ok res ∧
      res.final_recommendation = some (tallyArgmax (specTally data (scanOrder sets))) ∧
      res.confidence_score =
        tallyGet (specTally data (scanOrder sets)) (tallyArgmax (specTally data (scanOrder sets)))
          / specTotal data (scanOrder sets) ∧
      res.override_applied = false ∧
      res.rule_weights = some (specTally data (scanOrder sets)) := by
  obtain ⟨A, R, hsc⟩ := scanRules_no_override data (scanOrder sets) scanAcc0 herr hno
  have h0tal : tallyFoldFrom scanAcc0.tally data (scanOrder sets) =
      specTally data (scanOrder sets) := rfl
  have h0tot : scanAcc0.total + specTotal data (scanOrder sets) =
      specTotal data (scanOrder sets) := by
    simp [scanAcc0]
  rw [h0tal, h0tot] at hsc
  have hcomp := tallyFold_component_ge (matchedWeighted data (scanOrder sets))
    (matchedWeighted_weight_nonneg data (scanOrder sets)) tally0
  have hsum : tallySum (specTally data (scanOrder sets)) = specTotal data (scanOrder sets) := by
    have := tallySum_foldl (matchedWeighted data (scanOrder sets)) tally0
    simpa [specTally, tallyFoldFrom, specTotal, tallySum, tally0] using this
  have hmaxle : tallyMax (specTally data (scanOrder sets)) ≤ specTotal data (scanOrder sets) := by
    rw [← hsum]
    exact tallyMax_le_tallySum _ (by simpa [specTally, tallyFoldFrom, tally0] using hcomp.1)
      (by simpa [specTally, tallyFoldFrom, tally0] using hcomp.2.1)
      (by simpa [specTally, tallyFoldFrom, tally0] using hcomp.2.2.1)
      (by simpa [specTally, tallyFoldFrom, tally0] using hcomp.2.2.2)
  have hfin : finalizeScan
      (⟨A, R, specTally data (scanOrder sets), specTotal data (scanOrder sets)⟩ : ScanAcc) =
      { final_recommendation := some (tallyArgmax (specTally data (scanOrder sets)))
        confidence_score :=
          min (tallyMax (specTally data (scanOrder sets)) / specTotal data (scanOrder sets)) 1
        applied_rules := A
        rule_weights := some (specTally data (scanOrder sets))
        override_applied := false
        reasoning_chain := R } := by
    rw [finalizeScan, if_pos hpos]
  have hconf : min (tallyMax (specTally data (scanOrder sets))
      / specTotal data (scanOrder sets)) 1 =
      tallyGet (specTally data (scanOrder sets)) (tallyArgmax (specTally data (scanOrder sets)))
        / specTotal data (scanOrder sets) := by
    rw [tallyGet_tallyArgmax]
    exact min_eq_left ((div_le_one hpos).mpr hmaxle)
  refine ⟨finalizeScan
      (⟨A, R, specTally data (scanOrder sets), specTotal data (scanOrder sets)⟩ : ScanAcc),
    ?_, ?_, ?_, ?_, ?_⟩
  · rw [evaluateRules]
    exact hsc
  · rw [hfin]
  · rw [hfin]
    exact hconf
  · rw [hfin]
  · rw [hfin]

/-- A two-rule configuration with always-true conditions: weight 30 toward
repair, weight 20 toward replace. -/
def weightedPairConfig : List (String × RuleSet) :=
  [ ("economic_rules",
      { priority := 3
        rules :=
          [ { name := "repair_thirty", conditions := [], action := "recommend_repair"
              weight := 30, override := false, reasoning := "thirty toward repair" }
          , { name := "replace_twenty", conditions := [], action := "recommend_replace"
              weight := 20, override := false, reasoning := "twenty toward replace" } ] }) ]

/-- Witness for the C5 theorem: two matching non-override rules with
weights 30 (repair) and 20 (replace) yield recommendation repair with
confidence 30/50 = 0.6. -/
theorem evaluate_rules_weighted_tally_witness :
    ∃ res, evaluateRules weightedPairConfig (Value.dict []) = Except.ok res ∧
      res.final_recommendation = some "repair" ∧
      res.confidence_score = 3/5 ∧
      res.override_applied = false := by
  have hord : scanOrder weightedPairConfig =
      [ ("economic_rules",
          ⟨"repair_thirty", [], "recommend_repair", 30, false, "thirty toward repair"⟩)
      , ("economic_rules",
          ⟨"replace_twenty", [], "recommend_replace", 20, false, "twenty toward replace"⟩) ] := rfl
  have hT : specTally (Value.dict []) (scanOrder weightedPairConfig) =
      ⟨30, 20, 0, 0⟩ := by
    rw [hord]
    norm_num [specTally, tallyFoldFrom, matchedWeighted, condOkTrue, evalConditions,
      List.filter_cons, tallyAdd, tally0,
      show actionToRecommendation "recommend_repair" = "repair" from rfl,
      show actionToRecommendation "recommend_replace" = "replace" from rfl]
    decide
  have hW : specTotal (Value.dict []) (scanOrder weightedPairConfig) = 50 := by
    rw [hord]
    norm_num [specTotal, matchedWeighted, condOkTrue, evalConditions, List.filter_cons]
  obtain ⟨res, h1, h2, h3, h4, _⟩ :=
    evaluate_rules_weighted_tally weightedPairConfig (Value.dict [])
      (by intro p hp
          rw [hord] at hp
          simp only [List.mem_cons, List.not_mem_nil, or_false] at hp
          rcases hp with rfl | rfl <;> exact ⟨true, rfl⟩)
      (by intro p hp _
          rw [hord] at hp
          simp only [List.mem_cons, List.not_mem_nil, or_false] at hp
          rcases hp with rfl | rfl <;> rfl)
      (by rw [hW]; norm_num)
  refine ⟨res, h1, ?_, ?_, h4⟩
  · rw [h2, hT]
    norm_num [tallyArgmax, tallyMax]
  · rw [h3, hT, hW]
    norm_num [tallyGet, tallyArgmax, tallyMax]

/-- Annotation does not change an offer's score sequence. -/
theorem annotateFrom_map_score : ∀ (i : Nat) (l : List Offer),
    (annotateFrom i l).map (fun o => o.recommendation_score) =
      l.map (fun o => o.recommendation_score) := by
  intro i l
  induction l generalizing i with
  | nil => rfl
  | cons o rest ih => simp [annotateFrom, ih]

/-- Annotation does not change the number of offers. -/
theorem annotateFrom_length : ∀ (i : Nat) (l : List Offer),
    (annotateFrom i l).length = l.length := by
  intro i l
  induction l generalizing i with
  | nil => rfl
  | cons o rest ih => simp [annotateFrom, ih]

/-- The annotated list carries consecutive 1-based ranking positions. -/
theorem annotateFrom_rank : ∀ (l : List Offer) (i : Nat) (j : Nat)
    (h : j < (annotateFrom i l).length),
    ((annotateFrom i l).get ⟨j, h⟩).ranking_position = i + j + 1 := by
  intro l
  induction l with
  | nil =>
    intro i j h
    simp [annotateFrom] at h
  | cons o rest ih =>
    intro i j h
    cases j with
    | zero => simp [annotateFrom]
    | succ j' =>
      have := ih (i + 1) j' (by simpa [annotateFrom] using h)
      simp only [annotateFrom, List.get_cons_succ, this]
      omega

/-- Every annotated offer carries the confidence label computed from its
own score. -/
theorem annotateFrom_label : ∀ (l : List Offer) (i : Nat),
    ∀ o ∈ annotateFrom i l, o.recommendation_confidence = confidenceLabel o.recommendation_score := by
  intro l
  induction l with
  | nil =>
    intro i o ho
    simp [annotateFrom] at ho
  | cons p rest ih =>
    intro i o ho
    rcases (List.mem_cons.mp ho) with rfl | ho'
    · rfl
    · exact ih (i + 1) o ho'

/-- The annotated top three of the stable descending sort have
non-increasing scores. -/
theorem annotated_take3_sorted (l : List Offer) :
    List.Chain' (fun a b => b.recommendation_score ≤ a.recommendation_score)
      (annotateFrom 0 ((sortOffersDesc l).take 3)) := by
  have hchain : List.Chain' offerGE ((sortOffersDesc l).take 3) :=
    List.Pairwise.chain'
      (List.Pairwise.sublist (List.take_sublist 3 _) (List.sorted_insertionSort offerGE l))
  have hmapped : List.Chain' (fun a b : ℚ => b ≤ a)
      (((sortOffersDesc l).take 3).map (fun o => o.recommendation_score)) :=
    (List.chain'_map _).mpr hchain
  rw [← annotateFrom_map_score 0] at hmapped
  exact (List.chain'_map _).mp hmapped

/-- C8 (amended): the replacement ranker returns at most 3 offers, ordered
by non-increasing recommendation score (ties keep their stable order);
each returned offer carries its 1-based rank position and the confidence
label High for score > 70, Medium for score > 50, Standard otherwise. -/
theorem rank_replacement_offers_spec (device_type : String) (available : List Product)
    (customer_brands : List String) (cost_ceiling : ℚ) (age : Int) :
    (rankReplacementOffers device_type available customer_brands cost_ceiling age).length ≤ 3 ∧
    List.Chain' (fun a b => b.recommendation_score ≤ a.recommendation_score)
      (rankReplacementOffers device_type available customer_brands cost_ceiling age) ∧
    (∀ j (h : j < (rankReplacementOffers device_type available customer_brands cost_ceiling age).length),
      ((rankReplacementOffers device_type available customer_brands cost_ceiling age).get
        ⟨j, h⟩).ranking_position = j + 1) ∧
    (∀ o ∈ rankReplacementOffers device_type available customer_brands cost_ceiling age,
      o.recommendation_confidence = confidenceLabel o.recommendation_score) := by
  unfold rankReplacementOffers annotateTop3
  refine ⟨?_, ?_, ?_, ?_⟩
  · rw [annotateFrom_length]
    simp [List.length_take]
  · exact annotated_take3_sorted _
  · intro j h
    simpa using annotateFrom_rank _ 0 j h
  · exact annotateFrom_label _ 0

/-- Witness for the C8 theorem on the cooktop catalog with a preferred
V-Zug brand, ceiling 2000 and a 12-year-old device. -/
theorem rank_replacement_offers_spec_witness :
    (rankReplacementOffers "cooktop"
        [ ⟨"V-Zug", "AdoraID V6000 Supreme", 2400, 480, "high", "A++"⟩
        , ⟨"V-Zug", "AdoraID V4000", 1800, 360, "medium", "A+"⟩
        , ⟨"Miele", "KM 7897 FL", 2800, 560, "low", "A++"⟩
        , ⟨"Siemens", "EX875LYC1E", 1200, 240, "high", "A"⟩ ]
        ["V-Zug"] 2000 12).length ≤ 3 ∧
    List.Chain' (fun a b => b.recommendation_score ≤ a.recommendation_score)
      (rankReplacementOffers "cooktop"
        [ ⟨"V-Zug", "AdoraID V6000 Supreme", 2400, 480, "high", "A++"⟩
        , ⟨"V-Zug", "AdoraID V4000", 1800, 360, "medium", "A+"⟩
        , ⟨"Miele", "KM 7897 FL", 2800, 560, "low", "A++"⟩
        , ⟨"Siemens", "EX875LYC1E", 1200, 240, "high", "A"⟩ ]
        ["V-Zug"] 2000 12) :=
  ⟨(rank_replacement_offers_spec "cooktop"
      [ ⟨"V-Zug", "AdoraID V6000 Supreme", 2400, 480, "high", "A++"⟩
      , ⟨"V-Zug", "AdoraID V4000", 1800, 360, "medium", "A+"⟩
      , ⟨"Miele", "KM 7897 FL", 2800, 560, "low", "A++"⟩
      , ⟨"Siemens", "EX875LYC1E", 1200, 240, "high", "A"⟩ ]
      ["V-Zug"] 2000 12).1,
   (rank_replacement_offers_spec "cooktop"
      [ ⟨"V-Zug", "AdoraID V6000 Supreme", 2400, 480, "high", "A++"⟩
      , ⟨"V-Zug", "AdoraID V4000", 1800, 360, "medium", "A+"⟩
      , ⟨"Miele", "KM 7897 FL", 2800, 560, "low", "A++"⟩
      , ⟨"Siemens", "EX875LYC1E", 1200, 240, "high", "A"⟩ ]
      ["V-Zug"] 2000 12).2.1⟩

/-- A catalog entry that appears twice, producing two offers with equal
scores. -/
def dupProduct : Product := ⟨"BrandX", "ModelX", 100, 50, "high", "A++"⟩

/-- C8 counterexample: with a catalog holding two identical candidates the
ranker returns two offers of equal score 72, so the returned offers are
not strictly descending by score. -/
theorem rank_offers_not_strictly_descending_cex :
    (rankReplacementOffers "cooktop" [dupProduct, dupProduct] [] 1000 0).map
      (fun o => o.recommendation_score) = [72, 72] ∧
    ¬ List.Chain' (fun a b => b.recommendation_score < a.recommendation_score)
      (rankReplacementOffers "cooktop" [dupProduct, dupProduct] [] 1000 0) := by
  have hmap : (rankReplacementOffers "cooktop" [dupProduct, dupProduct] [] 1000 0).map
      (fun o => o.recommendation_score) = [72, 72] := by
    norm_num [rankReplacementOffers, dupProduct, mkOffer, productScore, maxMarginOf,
      avgPriceOf, round1, pyRoundInt, sortOffersDesc, List.insertionSort, List.orderedInsert,
      annotateTop3, annotateFrom, confidenceLabel, getDeliveryEstimate, getWarrantyYears,
      estimateTradeInValue, calculateTco, getSustainabilityScore, round2, pyTrunc, offerGE,
      List.filter, Int.fract, show ("A++" : String) ≠ "A+++" from by decide]
  refine ⟨hmap, fun hch => ?_⟩
  have h2 : List.Chain' (fun a b : ℚ => b < a) [(72 : ℚ), 72] := by
    rw [← hmap]
    exact (List.chain'_map _).mpr hch
  simp at h2
